import Mathlib

/-!
Verification development for the `saas-analytics-postgres` repository.

The repository contains two Python scripts:
* `quick_dashboard.py` — connects to PostgreSQL, runs a fixed ordered sequence
  of aggregate queries, formats the results and prints a text report;
* `generate_erd.py` — checks for the Graphviz `dot` binary, writes a hardcoded
  DOT graph description to `schema_diagram.dot` and shells out to `dot` to
  render PNG and SVG images.

This file shallowly embeds both scripts.  Pure string-formatting helpers are
translated to Lean functions over `ℚ` / `Int` / `String`; the effectful parts
(printing, query execution, file writes, subprocess calls) are modelled as
functions from an abstract environment (the outcome of each external
interaction) to the list of emitted events, so that every claim becomes a
statement about those functions.  Python's float -> string fixed-point
formatting (`:,.2f` etc.) is modelled as exact rounding of the rational value,
half to even, which agrees with CPython on every value whose decimal literal
is exactly representable (all inputs appearing in the claims are).
-/

namespace SaasAnalytics

/-- Insert a `,` after every three characters of a reversed digit list;
this is the grouping performed by Python's `,` format flag. -/
def groupRev : List Char → List Char
  | a :: b :: c :: d :: rest => a :: b :: c :: ',' :: groupRev (d :: rest)
  | l => l

/-- Render a natural number with thousands separators, e.g. `1234567 ↦ "1,234,567"`. -/
def natWithCommas (n : Nat) : String :=
  String.mk (groupRev (toString n).toList.reverse).reverse

/-- Render an integer with thousands separators (Python `f"{int(value):,}"`). -/
def intWithCommas (i : Int) : String :=
  if i < 0 then "-" ++ natWithCommas i.natAbs else natWithCommas i.natAbs

/-- `format_number` from `quick_dashboard.py`: `None ↦ "0"`, otherwise the
integer with thousands separators. -/
def formatNumber (value : Option Int) : String :=
  match value with
  | none => "0"
  | some v => intWithCommas v

/-- Floor of a rational as an integer (`Int.fdiv` is floor division). -/
def ratFloor (q : ℚ) : Int :=
  Int.fdiv q.num (q.den : Int)

/-- Round a rational to the nearest integer, ties to even — the rounding used
by CPython when formatting a float with a fixed number of decimals. -/
def roundHalfEven (q : ℚ) : Int :=
  let f := ratFloor q
  let r := q - (f : ℚ)
  if r < 1/2 then f
  else if 1/2 < r then f + 1
  else if f % 2 = 0 then f else f + 1

/-- Two-digit zero-padded rendering of a natural number below 100. -/
def twoDigits (n : Nat) : String :=
  (if n < 10 then "0" else "") ++ toString n

/-- Python `f"{x:.2f}"`: fixed two decimals, no thousands separators. -/
def fmt2 (q : ℚ) : String :=
  let c := roundHalfEven (q * 100)
  (if c < 0 then "-" else "") ++ toString (c.natAbs / 100) ++ "." ++ twoDigits (c.natAbs % 100)

/-- Python `f"{x:,.2f}"`: fixed two decimals with thousands separators. -/
def fmt2grouped (q : ℚ) : String :=
  let c := roundHalfEven (q * 100)
  (if c < 0 then "-" else "") ++ natWithCommas (c.natAbs / 100) ++ "." ++ twoDigits (c.natAbs % 100)

/-- Python `f"{x:.1f}"`: fixed one decimal. -/
def fmt1 (q : ℚ) : String :=
  let c := roundHalfEven (q * 10)
  (if c < 0 then "-" else "") ++ toString (c.natAbs / 10) ++ "." ++ toString (c.natAbs % 10)

/-- `format_currency` from `quick_dashboard.py`:
`None ↦ "$0.00"`, otherwise `"$" ++ f"{float(amount):,.2f}"`. -/
def formatCurrency (amount : Option ℚ) : String :=
  match amount with
  | none => "$0.00"
  | some q => "$" ++ fmt2grouped q

/-- `format_percentage` from `quick_dashboard.py`:
`None ↦ "0.00%"`, otherwise `f"{float(value):.2f}%"`. -/
def formatPercentage (value : Option ℚ) : String :=
  match value with
  | none => "0.00%"
  | some v => fmt2 v ++ "%"

/-- Worker for `pyTitle`: the boolean records whether the previous character
was non-alphabetic (i.e. the next alphabetic character starts a word). -/
def pyTitleGo : List Char → Bool → List Char
  | [], _ => []
  | c :: rest, startOfWord =>
    if c.isAlpha then
      (if startOfWord then c.toUpper else c.toLower) :: pyTitleGo rest false
    else
      c :: pyTitleGo rest true

/-- Python `str.title()` restricted to ASCII case mapping: the first
alphabetic character of each alphabetic run is uppercased, the rest lowercased. -/
def pyTitle (s : String) : String :=
  String.mk (pyTitleGo s.toList true)

/-- Left-justify a string in a field of `w` characters (Python `f"{s:<w}"`). -/
def padRight (s : String) (w : Nat) : String :=
  s ++ String.mk (List.replicate (w - s.length) ' ')

/-- `print_metric` from `quick_dashboard.py` (the `unit` argument is `""` at
every call site): the printed line `f"  {label:<35} {value}"`. -/
def printMetric (label value : String) : String :=
  "  " ++ padRight label 35 ++ " " ++ value

/-- Two-digit zero-padded month as produced by `strftime` `%m`. -/
def pad2 (n : Nat) : String :=
  (if n < 10 then "0" else "") ++ toString n

/-- Four-digit zero-padded year as produced by `strftime` `%Y` on glibc. -/
def pad4 (n : Nat) : String :=
  if n < 10 then "000" ++ toString n
  else if n < 100 then "00" ++ toString n
  else if n < 1000 then "0" ++ toString n
  else toString n

/-- `row['month'].strftime('%Y-%m')` for a month-truncated timestamp. -/
def strftimeYM (year month : Nat) : String :=
  pad4 year ++ "-" ++ pad2 month

/-! ## SQL-level models

The MRR query and the conversion-rate query of `quick_dashboard.py` are the
two queries whose arithmetic the spec pins down, so their SQL semantics is
embedded explicitly.  SQL `numeric` values are modelled as `ℚ`. -/

/-- A row of the `subscriptions` table, restricted to the columns read by the
MRR query of `quick_dashboard.py`. -/
structure Subscription where
  status : String
  billing_cycle : String
  mrr : ℚ

/-- The `CASE` expression of the MRR query:
`CASE WHEN billing_cycle = 'monthly' THEN mrr WHEN billing_cycle = 'annual' THEN mrr / 12 ELSE mrr END`. -/
def mrrContribution (s : Subscription) : ℚ :=
  if s.billing_cycle = "monthly" then s.mrr
  else if s.billing_cycle = "annual" then s.mrr / 12
  else s.mrr

/-- The MRR query `SELECT SUM(CASE ...) FROM subscriptions WHERE status = 'active'`:
SQL `SUM` over zero rows is `NULL`, hence the `Option`. -/
def totalMRRQuery (subs : List Subscription) : Option ℚ :=
  let active := subs.filter (fun s => s.status = "active")
  if active.isEmpty then none
  else some ((active.map mrrContribution).sum)

/-- The conversion-rate expression
`paid_users * 100.0 / NULLIF(total_users, 0)`: `NULLIF` yields SQL `NULL`
when the denominator is zero, and any division by `NULL` is `NULL`, so the
division is only ever evaluated with a nonzero denominator. -/
def conversionRateSQL (totalUsers paidUsers : Nat) : Option ℚ :=
  if totalUsers = 0 then none
  else some ((paidUsers : ℚ) * 100 / (totalUsers : ℚ))

/-! ## The metrics pipeline (`generate_dashboard`)

The dashboard is modelled as a function from the outcome of each of its
eleven queries to the list of events it emits.  An event is either a string
passed to `print` (one event per `print` call) or the execution of a named
query (emitted by `execute_query` whether the query succeeds or fails).
Each query's successful result is typed by the shape its SQL statement
guarantees (row dictionaries with fixed keys become typed records). -/

/-- An observable event of the dashboard run. -/
inductive Entry where
  | printed (s : String)
  | executedQuery (description : String)
deriving DecidableEq

/-- Outcome of one query: either a `psycopg2.Error` message or the rows. -/
abbrev QRes (α : Type) := Except String α

/-- A row of the revenue-by-plan query. -/
structure PlanRow where
  plan : String
  transactions : Int
  revenue : Option ℚ

/-- A row of the user-growth query (`month` truncated to year/month). -/
structure GrowthRow where
  year : Nat
  month : Nat
  new_users : Int
  activated_users : Int

/-- A row of the acquisition-channel query. -/
structure ChannelRow where
  signup_channel : String
  total_signups : Int
  paid_conversions : Int
  conversion_rate : Option ℚ

/-- The outcome of every query `generate_dashboard` runs, in catalog order. -/
structure DB where
  activeUsers : QRes (List Int)
  paidSubs : QRes (List Int)
  mrr : QRes (List (Option ℚ))
  conversion : QRes (List (Option ℚ))
  planRevenue : QRes (List PlanRow)
  growth : QRes (List GrowthRow)
  channels : QRes (List ChannelRow)
  recentSignups : QRes (List Int)
  recentUpgrades : QRes (List Int)
  recentChurn : QRes (List Int)
  projectsCreated : QRes (List Int)

/-- The diagnostic printed by `execute_query` when a query fails. -/
def queryFailedMsg (description e : String) : String :=
  "❌ Query failed (" ++ description ++ "): " ++ e

/-- `execute_query` from `quick_dashboard.py`: runs the query; on a
`psycopg2.Error` it prints the diagnostic naming the query and returns `[]`
instead of raising. -/
def executeQuery {α : Type} (description : String) (res : QRes (List α)) :
    List Entry × List α :=
  match res with
  | .ok rows => ([Entry.executedQuery description], rows)
  | .error e =>
      ([Entry.executedQuery description, Entry.printed (queryFailedMsg description e)], [])

/-- The sixty-character `'='*60` rule line. -/
def eqLine : String := String.mk (List.replicate 60 '=')

/-- `print_header` from `quick_dashboard.py`: three `print` calls. -/
def headerEntries (title : String) : List Entry :=
  [Entry.printed ("\n" ++ eqLine), Entry.printed ("📊 " ++ title), Entry.printed eqLine]

/-- The two `print` calls at the top of `generate_dashboard` (the timestamp
string is a parameter of the model). -/
def introEntries (now : String) : List Entry :=
  [Entry.printed "🚀 SaaS Analytics Dashboard", Entry.printed ("Generated at: " ++ now)]

/-- The closing banner printed after the last query. -/
def closingEntries : List Entry :=
  [Entry.printed ("\n" ++ eqLine),
   Entry.printed "✅ Dashboard generated successfully!",
   Entry.printed "\n💡 Tips:",
   Entry.printed "  • Run analytics queries in analytics_queries.sql for detailed analysis",
   Entry.printed "  • Check schema_diagram.png for database structure",
   Entry.printed "  • Use pgAdmin or psql for interactive querying",
   Entry.printed (eqLine ++ "\n")]

/-- `rows[0]['count'] if rows else 0`. -/
def countValue (rows : List Int) : Int :=
  match rows with
  | [] => 0
  | n :: _ => n

/-- One scalar-count metric: run the query and print the count (the four
recent-activity metrics and the two top counts all follow this shape). -/
def countMetricSection (description label : String) (res : QRes (List Int)) : List Entry :=
  let q := executeQuery description res
  q.1 ++ [Entry.printed (printMetric label (formatNumber (some (countValue q.2))))]

/-- `mrr[0]['total_mrr'] if mrr and mrr[0]['total_mrr'] else 0` — Python
truthiness: an empty row list, a SQL `NULL` and a zero `Decimal` all fall
back to `0`. -/
def truthyHeadValue (rows : List (Option ℚ)) : ℚ :=
  match rows with
  | [] => 0
  | r :: _ =>
      match r with
      | none => 0
      | some v => if v = 0 then 0 else v

/-- The MRR section: prints MRR and ARR (`float(mrr_value) * 12`). -/
def mrrSection (res : QRes (List (Option ℚ))) : List Entry :=
  let q := executeQuery "Current MRR" res
  let mrrValue := truthyHeadValue q.2
  q.1 ++
    [Entry.printed (printMetric "Monthly Recurring Revenue" (formatCurrency (some mrrValue))),
     Entry.printed (printMetric "Annual Recurring Revenue" (formatCurrency (some (mrrValue * 12))))]

/-- The conversion-rate section. -/
def conversionSection (res : QRes (List (Option ℚ))) : List Entry :=
  let q := executeQuery "Conversion rate" res
  let convRate := truthyHeadValue q.2
  q.1 ++ [Entry.printed (printMetric "Free-to-Paid Conversion" (formatPercentage (some convRate)))]

/-- The revenue-by-plan section: header, query, one metric line per row. -/
def planRevenueSection (res : QRes (List PlanRow)) : List Entry :=
  headerEntries "Revenue by Plan (Last 30 Days)" ++
    (let q := executeQuery "Plan revenue" res
     q.1 ++ q.2.map (fun row => Entry.printed (printMetric
       (pyTitle row.plan ++ " Plan")
       (formatCurrency row.revenue ++ " (" ++ formatNumber (some row.transactions) ++ " transactions)"))))

/-- The activation rate `activated / new_users * 100 if new_users > 0 else 0`. -/
def activationRate (row : GrowthRow) : ℚ :=
  if row.new_users > 0 then (row.activated_users : ℚ) / (row.new_users : ℚ) * 100 else 0

/-- The user-growth section. -/
def growthSection (res : QRes (List GrowthRow)) : List Entry :=
  headerEntries "User Growth (Last 6 Months)" ++
    (let q := executeQuery "User growth" res
     q.1 ++ q.2.map (fun row => Entry.printed (printMetric
       (strftimeYM row.year row.month)
       (formatNumber (some row.new_users) ++ " signups, " ++
        formatNumber (some row.activated_users) ++ " activated (" ++
        fmt1 (activationRate row) ++ "%)"))))

/-- The acquisition-channel section. -/
def channelSection (res : QRes (List ChannelRow)) : List Entry :=
  headerEntries "Top Performing Acquisition Channels" ++
    (let q := executeQuery "Channel performance" res
     q.1 ++ q.2.map (fun row => Entry.printed (printMetric
       (pyTitle (row.signup_channel.replace "_" " "))
       (formatNumber (some row.total_signups) ++ " signups → " ++
        formatNumber (some row.paid_conversions) ++ " paid (" ++
        formatPercentage row.conversion_rate ++ ")"))))

/-- Everything `generate_dashboard` does after the Active Users metric. -/
def dashboardAfterActive (db : DB) : List Entry :=
  countMetricSection "Paid subscribers" "Paid Subscribers" db.paidSubs ++
  mrrSection db.mrr ++
  conversionSection db.conversion ++
  planRevenueSection db.planRevenue ++
  growthSection db.growth ++
  channelSection db.channels ++
  headerEntries "Recent Activity (Last 7 Days)" ++
  countMetricSection "Recent signups" "New Signups" db.recentSignups ++
  countMetricSection "Recent upgrades" "New Paid Subscriptions" db.recentUpgrades ++
  countMetricSection "Recent churn" "Cancelled Subscriptions" db.recentChurn ++
  countMetricSection "Projects created" "Projects Created" db.projectsCreated ++
  closingEntries

/-- `generate_dashboard` on the path where the connection succeeded: the full
ordered sequence of prints and query executions. -/
def generateDashboard (now : String) (db : DB) : List Entry :=
  introEntries now ++
  headerEntries "Key Metrics Overview" ++
  countMetricSection "Active users" "Active Users" db.activeUsers ++
  dashboardAfterActive db

/-- The `__main__` wrapper of `quick_dashboard.py`.  Every per-query failure
is caught inside `execute_query`, so `generate_dashboard` completes normally
for every assignment of query outcomes; falling off the end of the `try`
block terminates the process with exit code 0. -/
def dashboardMain (now : String) (db : DB) : List Entry × Nat :=
  (generateDashboard now db, 0)

/-- The descriptions of the eleven queries, in the order they are run. -/
def dashboardCatalog : List String :=
  ["Active users", "Paid subscribers", "Current MRR", "Conversion rate",
   "Plan revenue", "User growth", "Channel performance",
   "Recent signups", "Recent upgrades", "Recent churn", "Projects created"]

/-- The query-outcome assignment in which every query fails with message `e`. -/
def allFail (e : String) : DB :=
  ⟨.error e, .error e, .error e, .error e, .error e, .error e, .error e,
   .error e, .error e, .error e, .error e⟩

/-- The strings printed during a run, in order. -/
def printedOf (es : List Entry) : List String :=
  es.filterMap (fun e =>
    match e with
    | Entry.printed s => some s
    | Entry.executedQuery _ => none)

/-- The queries executed during a run, in order. -/
def queryTrace (es : List Entry) : List String :=
  es.filterMap (fun e =>
    match e with
    | Entry.printed _ => none
    | Entry.executedQuery d => some d)

/-! ## The diagram pipeline (`generate_erd.py`) -/

/-- A row of schema data as consumed by `generate_dot_content`:
`(row[0], row[1], row[2])` = (type tag, name, details). -/
abbrev SchemaRow := String × String × String

/-- The names of the tables declared by the `TABLES` rows; these are exactly
the node identifiers emitted by `generate_dot_content`. -/
def tableNames (schema_data : List SchemaRow) : List String :=
  schema_data.filterMap (fun row => if row.1 = "TABLES" then some row.2.1 else none)

/-- One node declaration:
`f'  {table_name} [label="{table_name}|{columns}\l", shape=record];'` with
newlines in the column text replaced by the DOT line-break escape. -/
def nodeLine (name cols : String) : String :=
  "  " ++ name ++ " [label=\"" ++ name ++ "|" ++ cols.replace "\n" "\\l" ++ "\\l\", shape=record];"

/-- The node declarations collected from the `TABLES` rows. -/
def dotTables (schema_data : List SchemaRow) : List String :=
  schema_data.filterMap (fun row =>
    if row.1 = "TABLES" then some (nodeLine row.2.1 row.2.2) else none)

/-- Worker for `splitArrow`: scan left to right, breaking at each
non-overlapping occurrence of `"->"`; the accumulator holds the current
field's characters in reverse. -/
def splitArrowAux : List Char → List Char → List String
  | [], acc => [String.mk acc.reverse]
  | '-' :: '>' :: rest, acc => String.mk acc.reverse :: splitArrowAux rest []
  | c :: rest, acc => splitArrowAux rest (c :: acc)

/-- Python `s.split('->')` as called in `generate_dot_content`. -/
def splitArrow (s : String) : List String :=
  splitArrowAux s.toList []

/-- The edges collected from the `RELATIONSHIPS` rows: each row's name field
is split on `"->"`, and the row is kept only when the split has exactly two
parts (`if len(rel_parts) == 2`). -/
def dotEdgePairs (schema_data : List SchemaRow) : List (String × String) :=
  schema_data.filterMap (fun row =>
    if row.1 = "RELATIONSHIPS" then
      match splitArrow row.2.1 with
      | [from_table, to_table] => some (from_table, to_table)
      | _ => none
    else none)

/-- The edge declarations `f'  {from_table} -> {to_table};'`. -/
def dotRelationships (schema_data : List SchemaRow) : List String :=
  (dotEdgePairs schema_data).map (fun p => "  " ++ p.1 ++ " -> " ++ p.2 ++ ";")

/-- The fixed text before the node declarations. -/
def dotHeader : String :=
  "digraph ERD \x7b\n  rankdir=TB;\n  node [fontname=\"Arial\", fontsize=10];\n  edge [fontname=\"Arial\", fontsize=8];\n  \n  // Define table styling\n  node [shape=record, style=filled, fillcolor=lightblue];\n  \n"

/-- The fixed text between the node and edge declarations. -/
def dotMid : String :=
  "\n\n  // Define relationships\n  edge [arrowhead=crow];\n  \n"

/-- `generate_dot_content` from `generate_erd.py`. -/
def generate_dot_content (schema_data : List SchemaRow) : String :=
  dotHeader ++ String.intercalate "\n" (dotTables schema_data) ++
  dotMid ++ String.intercalate "\n" (dotRelationships schema_data) ++ "\n\x7d"

/-- The hardcoded DOT text that `main` writes to `schema_diagram.dot`, as the
list of its lines (the Python source holds it as a single triple-quoted
literal; joining these lines with newlines yields that literal exactly,
trailing spaces included). -/
def mainDotLines : List String :=
  ["digraph ERD \x7b",
   "  rankdir=TB;",
   "  node [fontname=\"Arial\", fontsize=10];",
   "  edge [fontname=\"Arial\", fontsize=8];",
   "  ",
   "  // Define table styling",
   "  node [shape=record, style=filled, fillcolor=lightblue];",
   "  ",
   "  users [label=\"users|id UUID PK\\lemail VARCHAR(255)\\lcreated_at TIMESTAMP\\lactivated_at TIMESTAMP\\llast_login_at TIMESTAMP\\lstatus user_status\\lsignup_channel signup_channel\\lcountry_code VARCHAR(2)\\lutm_source VARCHAR(100)\\lutm_medium VARCHAR(100)\\lutm_campaign VARCHAR(100)\\lreferred_by_user_id UUID\", shape=record];",
   "  ",
   "  plans [label=\"plans|id SERIAL PK\\lname plan_type\\lprice_monthly DECIMAL(10,2)\\lprice_annual DECIMAL(10,2)\\lmax_projects INTEGER\\lmax_team_members INTEGER\\lfeatures JSONB\", shape=record];",
   "  ",
   "  subscriptions [label=\"subscriptions|id UUID PK\\luser_id UUID\\lplan_id INTEGER\\lstatus subscription_status\\lbilling_cycle billing_cycle\\lstarted_at TIMESTAMP\\lended_at TIMESTAMP\\lcancelled_at TIMESTAMP\\lmrr DECIMAL(10,2)\\lcreated_at TIMESTAMP\", shape=record];",
   "  ",
   "  projects [label=\"projects|id UUID PK\\luser_id UUID\\lname VARCHAR(255)\\lcreated_at TIMESTAMP\\lcompleted_at TIMESTAMP\\lis_active BOOLEAN\", shape=record];",
   "  ",
   "  tasks [label=\"tasks|id UUID PK\\lproject_id UUID\\luser_id UUID\\ltitle VARCHAR(500)\\lcreated_at TIMESTAMP\\lcompleted_at TIMESTAMP\\lis_completed BOOLEAN\", shape=record];",
   "  ",
   "  team_memberships [label=\"team_memberships|id UUID PK\\linviter_user_id UUID\\linvited_user_id UUID\\lproject_id UUID\\linvited_at TIMESTAMP\\laccepted_at TIMESTAMP\\lrole VARCHAR(50)\", shape=record];",
   "  ",
   "  revenue_events [label=\"revenue_events|id UUID PK\\luser_id UUID\\lsubscription_id UUID\\lamount DECIMAL(10,2)\\levent_type VARCHAR(50)\\loccurred_at TIMESTAMP\\lstripe_payment_id VARCHAR(255)\", shape=record];",
   "  ",
   "  user_activities [label=\"user_activities|id UUID PK\\luser_id UUID\\lactivity_type VARCHAR(100)\\lmetadata JSONB\\loccurred_at TIMESTAMP\", shape=record];",
   "  ",
   "  funnel_events [label=\"funnel_events|id UUID PK\\luser_id UUID\\levent_name VARCHAR(100)\\loccurred_at TIMESTAMP\\lsession_id VARCHAR(255)\\lpage_url VARCHAR(500)\", shape=record];",
   "",
   "  // Define relationships",
   "  edge [arrowhead=crow];",
   "  ",
   "  subscriptions -> users [label=\"user_id\"];",
   "  subscriptions -> plans [label=\"plan_id\"];",
   "  projects -> users [label=\"user_id\"];",
   "  tasks -> projects [label=\"project_id\"];",
   "  tasks -> users [label=\"user_id\"];",
   "  team_memberships -> users [label=\"inviter_user_id\"];",
   "  team_memberships -> users [label=\"invited_user_id\"];",
   "  team_memberships -> projects [label=\"project_id\"];",
   "  revenue_events -> users [label=\"user_id\"];",
   "  revenue_events -> subscriptions [label=\"subscription_id\"];",
   "  user_activities -> users [label=\"user_id\"];",
   "  funnel_events -> users [label=\"user_id\"];",
   "  users -> users [label=\"referred_by_user_id\"];",
   "\x7d"]

/-- The hardcoded DOT text written by `main` (`generate_erd.py`, one literal). -/
def mainDotContent : String :=
  String.intercalate "\n" mainDotLines

/-- An observable event of the diagram pipeline. -/
inductive Event where
  | print (s : String)
  | writeFile (path content : String)
  | runProc (args : List String)
deriving DecidableEq

/-- Outcome of one `subprocess.run(... , check=True)` renderer invocation:
success, a `CalledProcessError` (with its rendered message), or a
`FileNotFoundError`. -/
inductive RenderOutcome where
  | success
  | fail (msg : String)
  | notFound
deriving DecidableEq

/-- The external world as seen by `generate_erd.py`: whether `psycopg2`
imports, the outcome of `dot -V` (`none` = binary not found, `some rc` = its
exit status), the outcomes of the two render invocations, and — never read by
`main` — the process environment and the database schema state. -/
structure ErdEnv where
  psycopg2Available : Bool
  dotVersion : Option Int
  pngRender : RenderOutcome
  svgRender : RenderOutcome
  envVars : List (String × String)
  schemaData : List SchemaRow

/-- The installation hint for the missing renderer binary. -/
def graphvizHint : String :=
  "✗ Graphviz not found. Install with: apt-get install graphviz (Ubuntu) or brew install graphviz (Mac)"

/-- `check_dependencies` from `generate_erd.py`: reports on `psycopg2`, then
probes `dot -V`; only Graphviz availability determines the returned flag. -/
def check_dependencies (env : ErdEnv) : List Event × Bool :=
  let psyEvents :=
    if env.psycopg2Available then [Event.print "✓ psycopg2 found"]
    else [Event.print "✗ psycopg2 not found. Install with: pip install psycopg2-binary",
          Event.print "ℹ Will generate static ERD without database connection"]
  let dotProbe :=
    match env.dotVersion with
    | some rc =>
        if rc = 0 then ([Event.runProc ["dot", "-V"], Event.print "✓ Graphviz found"], true)
        else ([Event.runProc ["dot", "-V"], Event.print graphvizHint], false)
    | none => ([Event.runProc ["dot", "-V"], Event.print graphvizHint], false)
  (psyEvents ++ dotProbe.1, dotProbe.2)

/-- The second line printed when a render invocation raises `CalledProcessError`. -/
def makeSureMsg : String :=
  "Make sure Graphviz is installed and the \x27dot\x27 command is available"

/-- The message printed when a render invocation raises `FileNotFoundError`. -/
def dotNotFoundMsg : String :=
  "✗ \x27dot\x27 command not found. Please install Graphviz"

/-- `main` from `generate_erd.py`, returning the emitted events and the
process exit code.  The renderer subprocesses — not the script — produce the
image files, so they appear as `runProc` events; the script itself writes only
`schema_diagram.dot`. -/
def erdMain (env : ErdEnv) : List Event × Nat :=
  let dep := check_dependencies env
  let ev0 := Event.print "🔧 Checking dependencies..." :: dep.1
  if dep.2 = false then
    (ev0 ++ [Event.print "❌ Cannot generate diagrams without Graphviz"], 1)
  else
    let ev1 := ev0 ++
      [Event.print "\n📊 Generating Entity Relationship Diagram...",
       Event.writeFile "schema_diagram.dot" mainDotContent,
       Event.print "✓ Generated schema_diagram.dot"]
    let pngArgs := ["dot", "-Tpng", "schema_diagram.dot", "-o", "schema_diagram.png"]
    let svgArgs := ["dot", "-Tsvg", "schema_diagram.dot", "-o", "schema_diagram.svg"]
    match env.pngRender with
    | RenderOutcome.notFound =>
        (ev1 ++ [Event.runProc pngArgs, Event.print dotNotFoundMsg], 1)
    | RenderOutcome.fail msg =>
        (ev1 ++ [Event.runProc pngArgs,
                 Event.print ("✗ Error generating diagram: " ++ msg),
                 Event.print makeSureMsg], 1)
    | RenderOutcome.success =>
        let ev2 := ev1 ++ [Event.runProc pngArgs, Event.print "✓ Generated schema_diagram.png"]
        match env.svgRender with
        | RenderOutcome.notFound =>
            (ev2 ++ [Event.runProc svgArgs, Event.print dotNotFoundMsg], 1)
        | RenderOutcome.fail msg =>
            (ev2 ++ [Event.runProc svgArgs,
                     Event.print ("✗ Error generating diagram: " ++ msg),
                     Event.print makeSureMsg], 1)
        | RenderOutcome.success =>
            (ev2 ++ [Event.runProc svgArgs,
                     Event.print "✓ Generated schema_diagram.svg",
                     Event.print "\n🎉 Schema diagrams generated successfully!",
                     Event.print "📁 Files created:",
                     Event.print "   - schema_diagram.dot (Graphviz source)",
                     Event.print "   - schema_diagram.png (Image)",
                     Event.print "   - schema_diagram.svg (Scalable vector)"], 0)

/-- The file writes performed by the script itself, in order. -/
def writesOf (es : List Event) : List (String × String) :=
  es.filterMap (fun e =>
    match e with
    | Event.writeFile p c => some (p, c)
    | _ => none)

/-! ## Helper lemmas -/

theorem printedOf_append (a b : List Entry) :
    printedOf (a ++ b) = printedOf a ++ printedOf b := by
  simp [printedOf]

theorem queryTrace_append (a b : List Entry) :
    queryTrace (a ++ b) = queryTrace a ++ queryTrace b := by
  simp [queryTrace]

theorem queryTrace_map_printed {α : Type} (f : α → String) (rows : List α) :
    queryTrace (rows.map (fun r => Entry.printed (f r))) = [] := by
  induction rows with
  | nil => rfl
  | cons a t ih =>
    simp only [List.map_cons, queryTrace, List.filterMap_cons] at ih ⊢
    exact ih

theorem queryTrace_countMetricSection (d l : String) (res : QRes (List Int)) :
    queryTrace (countMetricSection d l res) = [d] := by
  cases res <;> simp [countMetricSection, executeQuery, queryTrace]

theorem queryTrace_mrrSection (res : QRes (List (Option ℚ))) :
    queryTrace (mrrSection res) = ["Current MRR"] := by
  cases res <;> simp [mrrSection, executeQuery, queryTrace]

theorem queryTrace_conversionSection (res : QRes (List (Option ℚ))) :
    queryTrace (conversionSection res) = ["Conversion rate"] := by
  cases res <;> simp [conversionSection, executeQuery, queryTrace]

theorem queryTrace_planRevenueSection (res : QRes (List PlanRow)) :
    queryTrace (planRevenueSection res) = ["Plan revenue"] := by
  cases res <;>
    simp [planRevenueSection, executeQuery, headerEntries, queryTrace_append,
          queryTrace_map_printed, queryTrace]

theorem queryTrace_growthSection (res : QRes (List GrowthRow)) :
    queryTrace (growthSection res) = ["User growth"] := by
  cases res <;>
    simp [growthSection, executeQuery, headerEntries, queryTrace_append,
          queryTrace_map_printed, queryTrace]

theorem queryTrace_channelSection (res : QRes (List ChannelRow)) :
    queryTrace (channelSection res) = ["Channel performance"] := by
  cases res <;>
    simp [channelSection, executeQuery, headerEntries, queryTrace_append,
          queryTrace_map_printed, queryTrace]

theorem queryTrace_introEntries (now : String) : queryTrace (introEntries now) = [] := rfl

theorem queryTrace_headerEntries (t : String) : queryTrace (headerEntries t) = [] := rfl

theorem queryTrace_closingEntries : queryTrace closingEntries = [] := rfl

/-- `dashboardAfterActive` reads every query outcome except the Active Users
one, so overwriting that field does not change it. -/
theorem dashboardAfterActive_update (db : DB) (x : QRes (List Int)) :
    dashboardAfterActive { db with activeUsers := x } = dashboardAfterActive db := rfl

theorem formatNumber_zero : formatNumber (some 0) = "0" := by rfl

/-- `roundHalfEven` is the identity on integers (rational arithmetic cannot be
evaluated by kernel reduction, so concrete formatter evaluations go through
this lemma). -/
theorem roundHalfEven_intCast (n : Int) : roundHalfEven ((n : ℚ)) = n := by
  unfold roundHalfEven ratFloor
  rw [Rat.num_intCast, Rat.den_intCast]
  simp only [Nat.cast_one, Int.fdiv_one, sub_self]
  norm_num

theorem formatPercentage_zero : formatPercentage (some 0) = "0.00%" := by
  have h : ((0 : ℚ) * 100) = ((0 : Int) : ℚ) := by norm_num
  simp only [formatPercentage, fmt2, h, roundHalfEven_intCast]
  decide

/-! ## Claims -/

/-- C1: in the MRR aggregation, the monthly total is the sum, over the active
subscriptions, of the per-subscription contribution, and for an active
subscription with stored amount `A` that contribution is `A / 12` when the
billing cycle is `'annual'` and `A` unchanged when it is `'monthly'` (exact
rational arithmetic, no rounding at this step). -/
theorem mrr_billing_cycle_normalization (s : Subscription) (subs : List Subscription)
    (hActive : s.status = "active") (hMem : s ∈ subs) :
    totalMRRQuery subs
      = some (((subs.filter (fun t => t.status = "active")).map mrrContribution).sum) ∧
    (s.billing_cycle = "annual" → mrrContribution s = s.mrr / 12) ∧
    (s.billing_cycle = "monthly" → mrrContribution s = s.mrr) := by
  have hmemf : s ∈ subs.filter (fun t => t.status = "active") :=
    List.mem_filter.mpr ⟨hMem, by simp [hActive]⟩
  refine ⟨?_, fun h => ?_, fun h => ?_⟩
  · cases hfil : subs.filter (fun t => t.status = "active") with
    | nil => rw [hfil] at hmemf; exact absurd hmemf (List.not_mem_nil s)
    | cons a l => simp [totalMRRQuery, hfil]
  · simp [mrrContribution, h]
  · simp [mrrContribution, h]

/-- Witness for C1 at a concrete annual subscription of amount 120. -/
theorem mrr_billing_cycle_normalization_witness :
    totalMRRQuery [⟨"active", "annual", (120 : ℚ)⟩]
      = some (((([⟨"active", "annual", (120 : ℚ)⟩] : List Subscription).filter
          (fun t => t.status = "active")).map mrrContribution).sum) ∧
    mrrContribution ⟨"active", "annual", (120 : ℚ)⟩ = (120 : ℚ) / 12 := by
  have h := mrr_billing_cycle_normalization ⟨"active", "annual", (120 : ℚ)⟩
    [⟨"active", "annual", (120 : ℚ)⟩] rfl (by simp)
  exact ⟨h.1, h.2.1 rfl⟩

/-- C2: with a zero total-user denominator, `NULLIF` makes the SQL expression
`NULL` (the division is never evaluated), the Python fallback turns it into
`0`, and the reported rate is exactly the string `"0.00%"` — both as the
output of the conversion section and inside the full dashboard output. -/
theorem conversion_rate_zero_denominator (paid : Nat) (now : String) (db : DB) :
    conversionRateSQL 0 paid = none ∧
    printedOf (conversionSection (Except.ok [conversionRateSQL 0 paid]))
      = [printMetric "Free-to-Paid Conversion" "0.00%"] ∧
    Entry.printed (printMetric "Free-to-Paid Conversion" "0.00%") ∈
      generateDashboard now { db with conversion := Except.ok [conversionRateSQL 0 paid] } := by
  refine ⟨rfl, ?_, ?_⟩
  · simp [conversionSection, executeQuery, truthyHeadValue, conversionRateSQL,
          printedOf, formatPercentage_zero]
  · simp [generateDashboard, dashboardAfterActive, conversionSection, executeQuery,
          truthyHeadValue, conversionRateSQL, formatPercentage_zero]

/-- C3: the currency formatter maps a null/absent amount to exactly `"$0.00"`
and maps `1234.5` to exactly `"$1,234.50"`. -/
theorem format_currency_spec :
    formatCurrency none = "$0.00" ∧
    formatCurrency (some ((2469 : ℚ) / 2)) = "$1,234.50" := by
  have h : ((2469 : ℚ) / 2 * 100) = ((123450 : Int) : ℚ) := by norm_num
  refine ⟨rfl, ?_⟩
  simp only [formatCurrency, fmt2grouped, h, roundHalfEven_intCast]
  decide

/-- C4: for every assignment of query outcomes, all eleven catalog queries are
executed in declaration order (no failure aborts the run or skips a later
query), and each failing query produces the diagnostic naming it in the
printed output. -/
theorem query_failure_diagnostic_and_continuation (now : String) (db : DB) :
    queryTrace (generateDashboard now db) = dashboardCatalog ∧
    (∀ e, db.activeUsers = Except.error e →
      Entry.printed (queryFailedMsg "Active users" e) ∈ generateDashboard now db) ∧
    (∀ e, db.paidSubs = Except.error e →
      Entry.printed (queryFailedMsg "Paid subscribers" e) ∈ generateDashboard now db) ∧
    (∀ e, db.mrr = Except.error e →
      Entry.printed (queryFailedMsg "Current MRR" e) ∈ generateDashboard now db) ∧
    (∀ e, db.conversion = Except.error e →
      Entry.printed (queryFailedMsg "Conversion rate" e) ∈ generateDashboard now db) ∧
    (∀ e, db.planRevenue = Except.error e →
      Entry.printed (queryFailedMsg "Plan revenue" e) ∈ generateDashboard now db) ∧
    (∀ e, db.growth = Except.error e →
      Entry.printed (queryFailedMsg "User growth" e) ∈ generateDashboard now db) ∧
    (∀ e, db.channels = Except.error e →
      Entry.printed (queryFailedMsg "Channel performance" e) ∈ generateDashboard now db) ∧
    (∀ e, db.recentSignups = Except.error e →
      Entry.printed (queryFailedMsg "Recent signups" e) ∈ generateDashboard now db) ∧
    (∀ e, db.recentUpgrades = Except.error e →
      Entry.printed (queryFailedMsg "Recent upgrades" e) ∈ generateDashboard now db) ∧
    (∀ e, db.recentChurn = Except.error e →
      Entry.printed (queryFailedMsg "Recent churn" e) ∈ generateDashboard now db) ∧
    (∀ e, db.projectsCreated = Except.error e →
      Entry.printed (queryFailedMsg "Projects created" e) ∈ generateDashboard now db) := by
  refine ⟨?_, ?_, ?_, ?_, ?_, ?_, ?_, ?_, ?_, ?_, ?_, ?_⟩
  · simp [generateDashboard, dashboardAfterActive, queryTrace_append,
          queryTrace_countMetricSection, queryTrace_mrrSection, queryTrace_conversionSection,
          queryTrace_planRevenueSection, queryTrace_growthSection, queryTrace_channelSection,
          queryTrace_introEntries, queryTrace_headerEntries, queryTrace_closingEntries,
          dashboardCatalog]
  all_goals intro e h
  all_goals simp [generateDashboard, dashboardAfterActive, countMetricSection, mrrSection,
    conversionSection, planRevenueSection, growthSection, channelSection, executeQuery, h]

/-- Witness for C4: with every query failing, all eleven queries still run in
order and the diagnostic for the first and the last query is printed. -/
theorem query_failure_diagnostic_and_continuation_witness :
    queryTrace (generateDashboard "" (allFail "boom")) = dashboardCatalog ∧
    Entry.printed (queryFailedMsg "Active users" "boom")
      ∈ generateDashboard "" (allFail "boom") ∧
    Entry.printed (queryFailedMsg "Projects created" "boom")
      ∈ generateDashboard "" (allFail "boom") := by
  have h := query_failure_diagnostic_and_continuation "" (allFail "boom")
  exact ⟨h.1, h.2.1 "boom" rfl, h.2.2.2.2.2.2.2.2.2.2.2 "boom" rfl⟩

/-- C5: the metrics pipeline exits with code 0 regardless of per-query
failures — in particular also when every query in the catalog fails — and the
run still reaches the closing success banner. -/
theorem dashboard_exit_code_zero (now : String) (db : DB) (e : String) :
    (dashboardMain now db).2 = 0 ∧
    (dashboardMain now (allFail e)).2 = 0 ∧
    Entry.printed "✅ Dashboard generated successfully!" ∈ (dashboardMain now db).1 := by
  refine ⟨rfl, rfl, ?_⟩
  simp [dashboardMain, generateDashboard, dashboardAfterActive, closingEntries]

/-- C10: when the Active Users count query fails, the report prints the
metric line with the canonical zero value `"0"`; the printed output is the
output of the true-zero run with exactly the failure diagnostic inserted, so
the metric itself renders identically to a genuine zero count. -/
theorem failed_count_query_prints_zero (now : String) (db : DB) (e : String) :
    formatNumber (some 0) = "0" ∧
    printedOf (generateDashboard now { db with activeUsers := Except.error e })
      = printedOf (introEntries now ++ headerEntries "Key Metrics Overview")
        ++ [queryFailedMsg "Active users" e, printMetric "Active Users" "0"]
        ++ printedOf (dashboardAfterActive db) ∧
    printedOf (generateDashboard now { db with activeUsers := Except.ok [0] })
      = printedOf (introEntries now ++ headerEntries "Key Metrics Overview")
        ++ [printMetric "Active Users" "0"]
        ++ printedOf (dashboardAfterActive db) := by
  refine ⟨rfl, ?_, ?_⟩ <;>
    simp [generateDashboard, countMetricSection, executeQuery, countValue,
          printedOf_append, printedOf, formatNumber_zero, dashboardAfterActive_update]

/-- The node count is unconditional: one node declaration per `TABLES` row. -/
theorem dotTables_length (d : List SchemaRow) :
    (dotTables d).length = (d.filter (fun r => r.1 = "TABLES")).length := by
  induction d with
  | nil => rfl
  | cons r t ih =>
    by_cases hr : r.1 = "TABLES" <;>
      simp [dotTables, List.filterMap_cons, List.filter_cons, hr] <;>
      simp [dotTables] at ih <;> simp [ih]

/-- One edge per `RELATIONSHIPS` row, provided every relationship name splits
on `"->"` into exactly two parts. -/
theorem dotEdgePairs_length : ∀ (d : List SchemaRow),
    (∀ row ∈ d, row.1 = "RELATIONSHIPS" → ∃ a b, splitArrow row.2.1 = [a, b]) →
    (dotEdgePairs d).length = (d.filter (fun r => r.1 = "RELATIONSHIPS")).length := by
  intro d
  induction d with
  | nil => intro _; rfl
  | cons r t ih =>
    intro h
    have ht := ih (fun row hm hrel => h row (List.mem_cons_of_mem _ hm) hrel)
    by_cases hr : r.1 = "RELATIONSHIPS"
    · obtain ⟨a, b, hab⟩ := h r (List.mem_cons_self _ _) hr
      simp [dotEdgePairs, List.filterMap_cons, List.filter_cons, hr, hab] at ht ⊢
      simp [ht]
    · simp [dotEdgePairs, List.filterMap_cons, List.filter_cons, hr] at ht ⊢
      simp [ht]

/-- Every emitted edge endpoint is a declared table name, provided the
relationship rows only reference declared tables. -/
theorem dotEdgePairs_endpoints (d : List SchemaRow)
    (h : ∀ row ∈ d, row.1 = "RELATIONSHIPS" →
      ∃ a b, splitArrow row.2.1 = [a, b] ∧ a ∈ tableNames d ∧ b ∈ tableNames d) :
    ∀ p ∈ dotEdgePairs d, p.1 ∈ tableNames d ∧ p.2 ∈ tableNames d := by
  intro p hp
  obtain ⟨row, hrow, hf⟩ := List.mem_filterMap.mp hp
  by_cases hrel : row.1 = "RELATIONSHIPS"
  · obtain ⟨a, b, hsplit, ha, hb⟩ := h row hrow hrel
    rw [if_pos hrel, hsplit] at hf
    simp only [] at hf
    cases hf
    exact ⟨ha, hb⟩
  · rw [if_neg hrel] at hf
    exact absurd hf (by simp)

/-- A schema-data input on which C6 as stated fails: two relationship rows
yield a single edge (the row whose name lacks `"->"` is silently dropped),
and the surviving edge references undeclared node identifiers. -/
def c6bad : List SchemaRow :=
  [("TABLES", "t", "c"), ("RELATIONSHIPS", "a->b", "d"), ("RELATIONSHIPS", "ab", "x")]

/-- Counterexample to C6 as stated: on `c6bad` (M = 2 relationship rows) the
builder emits only one edge, and that edge's endpoints are not among the
declared node identifiers. -/
theorem dot_builder_counts_claim_false :
    ¬ (((dotRelationships c6bad).length
          = (c6bad.filter (fun r => r.1 = "RELATIONSHIPS")).length) ∧
       (∀ p ∈ dotEdgePairs c6bad, p.1 ∈ tableNames c6bad ∧ p.2 ∈ tableNames c6bad)) := by
  decide

/-- C6 (amended): the builder always emits exactly one node declaration per
table row; and on every schema-data input in which each relationship row's
name (under `splitArrow`) splits into exactly two parts that both name some table row,
it emits exactly one edge per relationship row, and every edge's endpoints
are among the declared node identifiers. -/
theorem dot_builder_counts (schema_data : List SchemaRow)
    (h : ∀ row ∈ schema_data, row.1 = "RELATIONSHIPS" →
      ∃ a b, splitArrow row.2.1 = [a, b] ∧
        a ∈ tableNames schema_data ∧ b ∈ tableNames schema_data) :
    (dotTables schema_data).length
      = (schema_data.filter (fun r => r.1 = "TABLES")).length ∧
    (dotRelationships schema_data).length
      = (schema_data.filter (fun r => r.1 = "RELATIONSHIPS")).length ∧
    ∀ p ∈ dotEdgePairs schema_data,
      p.1 ∈ tableNames schema_data ∧ p.2 ∈ tableNames schema_data := by
  refine ⟨dotTables_length schema_data, ?_, dotEdgePairs_endpoints schema_data h⟩
  have hlen : ∀ row ∈ schema_data, row.1 = "RELATIONSHIPS" →
      ∃ a b, splitArrow row.2.1 = [a, b] :=
    fun row hm hrel => by
      obtain ⟨a, b, hab, _, _⟩ := h row hm hrel
      exact ⟨a, b, hab⟩
  calc (dotRelationships schema_data).length
      = (dotEdgePairs schema_data).length := by simp [dotRelationships]
    _ = (schema_data.filter (fun r => r.1 = "RELATIONSHIPS")).length :=
        dotEdgePairs_length schema_data hlen

/-- A well-formed schema-data input for the witness of the amended C6. -/
def c6good : List SchemaRow :=
  [("TABLES", "users", "id uuid"), ("RELATIONSHIPS", "users->users", "referred_by_user_id")]

/-- Witness for the amended C6 at the concrete consistent input `c6good`. -/
theorem dot_builder_counts_witness :
    (dotTables c6good).length = (c6good.filter (fun r => r.1 = "TABLES")).length ∧
    (dotRelationships c6good).length
      = (c6good.filter (fun r => r.1 = "RELATIONSHIPS")).length ∧
    ∀ p ∈ dotEdgePairs c6good, p.1 ∈ tableNames c6good ∧ p.2 ∈ tableNames c6good := by
  refine dot_builder_counts c6good ?_
  intro row hrow hrel
  rcases (by simpa [c6good] using hrow :
      row = (("TABLES", "users", "id uuid") : SchemaRow) ∨
      row = (("RELATIONSHIPS", "users->users", "referred_by_user_id") : SchemaRow)) with h1 | h2
  · rw [h1] at hrel; exact absurd hrel (by decide)
  · rw [h2]
    exact ⟨"users", "users", by decide, by decide, by decide⟩

/-- C7: a relationship row whose name splits into two identical identifiers
is kept as exactly one edge with identical source and target (never dropped),
and the example schema's self-referential `referred_by` edge appears exactly
once in the hardcoded DOT text of `main`. -/
theorem self_referential_edge (rows : List SchemaRow) (name details t : String)
    (h : splitArrow name = [t, t]) :
    dotEdgePairs ((("RELATIONSHIPS", name, details) : SchemaRow) :: rows)
      = (t, t) :: dotEdgePairs rows ∧
    (dotRelationships [(("RELATIONSHIPS", name, details) : SchemaRow)]).length = 1 ∧
    "  users -> users [label=\"referred_by_user_id\"];" ∈ mainDotLines ∧
    mainDotLines.count "  users -> users [label=\"referred_by_user_id\"];" = 1 := by
  refine ⟨?_, ?_, by decide, by decide⟩
  · simp [dotEdgePairs, List.filterMap_cons, h]
  · simp [dotRelationships, dotEdgePairs, List.filterMap_cons, h]

/-- Witness for C7 at the example schema's self-referential relationship row. -/
theorem self_referential_edge_witness :
    dotEdgePairs [(("RELATIONSHIPS", "users->users", "referred_by_user_id") : SchemaRow)]
      = [("users", "users")] ∧
    "  users -> users [label=\"referred_by_user_id\"];" ∈ mainDotLines := by
  have h := self_referential_edge [] "users->users" "referred_by_user_id" "users" (by decide)
  exact ⟨h.1, h.2.2.1⟩

/-- C8: when the `dot` binary is not found (or `dot -V` exits non-zero), the
diagram pipeline prints the installation hint and exits with code 1, having
written no file and attempted no subprocess other than the version probe — in
particular neither render invocation that would produce the image files. -/
theorem missing_renderer_aborts (env : ErdEnv)
    (h : env.dotVersion = none ∨ ∃ rc, env.dotVersion = some rc ∧ rc ≠ 0) :
    (erdMain env).2 = 1 ∧
    Event.print graphvizHint ∈ (erdMain env).1 ∧
    writesOf (erdMain env).1 = [] ∧
    ∀ args, Event.runProc args ∈ (erdMain env).1 → args = ["dot", "-V"] := by
  obtain ⟨psy, dv, png, svg, vars, sd⟩ := env
  rcases h with h | ⟨rc, h, hrc⟩
  · subst h
    cases psy <;> simp [erdMain, check_dependencies, writesOf]
  · subst h
    cases psy <;> simp [erdMain, check_dependencies, writesOf, hrc]

/-- Witness for C8: `dot` absent, everything else available. -/
theorem missing_renderer_aborts_witness :
    (erdMain ⟨true, none, RenderOutcome.success, RenderOutcome.success, [], []⟩).2 = 1 ∧
    Event.print graphvizHint
      ∈ (erdMain ⟨true, none, RenderOutcome.success, RenderOutcome.success, [], []⟩).1 ∧
    writesOf (erdMain ⟨true, none, RenderOutcome.success, RenderOutcome.success, [], []⟩).1
      = [] := by
  have h := missing_renderer_aborts
    ⟨true, none, RenderOutcome.success, RenderOutcome.success, [], []⟩ (Or.inl rfl)
  exact ⟨h.1, h.2.1, h.2.2.1⟩

/-- On every run that exits 0, the script's only file write is the fixed
hardcoded DOT text to `schema_diagram.dot`. -/
theorem erdMain_exit0_writes (env : ErdEnv) (h : (erdMain env).2 = 0) :
    writesOf (erdMain env).1 = [("schema_diagram.dot", mainDotContent)] := by
  obtain ⟨psy, dv, png, svg, vars, sd⟩ := env
  rcases dv with _ | rc
  · cases psy <;> simp [erdMain, check_dependencies, writesOf] at h
  · by_cases hrc : rc = 0
    · subst hrc
      cases psy <;> cases png <;> cases svg <;>
        simp [erdMain, check_dependencies, writesOf] at h ⊢
    · cases psy <;> simp [erdMain, check_dependencies, writesOf, hrc] at h

/-- C9: every successful run of the diagram pipeline writes the same fixed
graph-description text — the environment, the database schema state, and the
data-driven builder play no part — so any two successful runs produce
byte-identical file contents. -/
theorem erd_output_deterministic (env1 env2 : ErdEnv)
    (h1 : (erdMain env1).2 = 0) (h2 : (erdMain env2).2 = 0) :
    writesOf (erdMain env1).1 = [("schema_diagram.dot", mainDotContent)] ∧
    writesOf (erdMain env1).1 = writesOf (erdMain env2).1 := by
  have w1 := erdMain_exit0_writes env1 h1
  have w2 := erdMain_exit0_writes env2 h2
  exact ⟨w1, w1.trans w2.symm⟩

/-- Witness for C9: two successful runs over different environments and
schema states write identical contents. -/
theorem erd_output_deterministic_witness :
    writesOf (erdMain ⟨true, some 0, RenderOutcome.success, RenderOutcome.success, [], []⟩).1
      = [("schema_diagram.dot", mainDotContent)] ∧
    writesOf (erdMain ⟨true, some 0, RenderOutcome.success, RenderOutcome.success, [], []⟩).1
      = writesOf (erdMain ⟨false, some 0, RenderOutcome.success, RenderOutcome.success,
          [("PGHOST", "example")], [("TABLES", "t", "c")]⟩).1 := by
  exact erd_output_deterministic
    ⟨true, some 0, RenderOutcome.success, RenderOutcome.success, [], []⟩
    ⟨false, some 0, RenderOutcome.success, RenderOutcome.success,
      [("PGHOST", "example")], [("TABLES", "t", "c")]⟩ rfl rfl

end SaasAnalytics
